import Mathlib

/-!
Verification development for the pyperflog instrumentation shim.

The embedding models src/pyperflog/pyperflog.py: the performance wrapper,
update_func_stats, decorate_module_functions, prepare_directory,
get_process_name, and the one-time initialization guard, together with the
sample target module src/some_module/module.py. The external LineProfiler
engine and the operating system are modelled as explicit state, per the
interface the specification gives for them.
-/

namespace Pyperflog

/-- Key identifying a function inside the timing engine: source file name,
first line number, and function name, as read from the code object
(co_filename, co_firstlineno, name). -/
structure FuncKey where
  file : String
  firstLine : Nat
  name : String
deriving DecidableEq

/-- One per-line timing record held by the engine: line number, hit count,
and accumulated time. -/
structure TimingEntry where
  lineNo : Nat
  hits : Nat
  time : Nat
deriving DecidableEq

/-- Accumulated snapshot returned by LineProfiler.get_stats: a table of line
timings keyed by FuncKey, plus a display unit. -/
structure Stats where
  timings : List (FuncKey × List TimingEntry)
  unit : Nat
deriving DecidableEq

/-- State of the external LineProfiler engine: its accumulated stats and the
functions registered with it. -/
structure LineProfiler where
  stats : Stats
  instrumented : List FuncKey
deriving DecidableEq

/-- Exceptions of the embedded fragment: a user-level exception carrying a
type and a message, or an OSError raised by a file operation on a path. -/
inductive Exc where
  | user (ty : String) (msg : String)
  | osError (path : String)
deriving DecidableEq

/-- Observable side-effect events of one wrapped call. -/
inductive Event where
  | instrumentCall (k : FuncKey)
  | statsFetch
  | fileOpen (path : String)
  | fileWrite (path : String)
deriving DecidableEq

/-- Model of the filesystem seen by the log writer: the chunks appended to
each path so far, and the paths on which open or write raises OSError. -/
structure FileSystem where
  files : List (String × List String)
  failingPaths : List String
deriving DecidableEq

/-- A target Python function: its code-object key together with its behavior,
mapping arguments to a result (normal value or raised exception) and to the
per-line timing entries the engine records while the call executes. -/
structure PyFunc (α β : Type) where
  key : FuncKey
  run : α → Except Exc β × List TimingEntry

/-- Python dict get on a timings table: first binding of the key, if any. -/
def lookupTiming (ts : List (FuncKey × List TimingEntry)) (k : FuncKey) :
    Option (List TimingEntry) :=
  match ts with
  | [] => none
  | e :: rest => if e.1 = k then some e.2 else lookupTiming rest k

/-- Path of the per-function log file: profiler_log_path/<function name>. -/
def logFilePath (profiler_log_path : String) (func_name : String) : String :=
  profiler_log_path ++ "/" ++ func_name

/-- Append one rendered chunk to the file at a path, creating it if absent. -/
def appendChunk (files : List (String × List String)) (path chunk : String) :
    List (String × List String) :=
  match files with
  | [] => [(path, [chunk])]
  | e :: rest =>
    if e.1 = path then (e.1, e.2 ++ [chunk]) :: rest
    else e :: appendChunk rest path chunk

/-- Modelled from the spec interface of the external engine: show_func renders
a human-readable table of one function line timings; the exact text is owned
by the engine and irrelevant to the claims. -/
def show_func (file : String) (firstLine : Nat) (name : String)
    (timing : List TimingEntry) (u : Nat) : String :=
  "File: " ++ file ++ "\nFunction: " ++ name ++ " at line " ++ toString firstLine
    ++ "\nTimer unit: " ++ toString u ++ "\n"
    ++ String.intercalate "\n" (timing.map (fun e =>
        toString e.lineNo ++ " " ++ toString e.hits ++ " " ++ toString e.time))

/-- Outcome of update_func_stats: the returned value or raised exception, the
filesystem afterwards, and the side-effect events emitted by the call. -/
structure UpdateResult where
  result : Except Exc Unit
  fs : FileSystem
  events : List Event

/-- Embedding of update_func_stats: fetch the stats snapshot of the profiler,
look up the timing entry under the key of func, return silently when the
entry is missing or empty (Python: if not timing return), otherwise open the
log file in append mode and render the report into it; open on a failing
path raises OSError. -/
def update_func_stats (profiler : LineProfiler) (func : FuncKey)
    (profiler_log_path : String) (fs : FileSystem) : UpdateResult :=
  let stats := profiler.stats
  match lookupTiming stats.timings func with
  | none => { result := .ok (), fs := fs, events := [Event.statsFetch] }
  | some timing =>
    if timing.isEmpty then
      { result := .ok (), fs := fs, events := [Event.statsFetch] }
    else
      let path := logFilePath profiler_log_path func.name
      if path ∈ fs.failingPaths then
        { result := .error (Exc.osError path), fs := fs,
          events := [Event.statsFetch, Event.fileOpen path] }
      else
        let chunk := show_func func.file func.firstLine func.name timing stats.unit
        { result := .ok (),
          fs := { fs with files := appendChunk fs.files path chunk },
          events := [Event.statsFetch, Event.fileOpen path, Event.fileWrite path] }

/-- Outcome of one call of a wrapped function: the returned value or raised
exception, the engine and filesystem afterwards, and the events emitted. -/
structure CallResult (β : Type) where
  result : Except Exc β
  profiler : LineProfiler
  fs : FileSystem
  events : List Event

/-- Modelled from the spec interface of the external engine: calling the
profiler object on a function registers it (idempotently) with the engine. -/
def instrumentFunc (p : LineProfiler) (k : FuncKey) : LineProfiler :=
  { p with instrumented :=
      if k ∈ p.instrumented then p.instrumented else p.instrumented ++ [k] }

/-- Accumulate per-line timing entries into the engine table under key k. -/
def addTimings (ts : List (FuncKey × List TimingEntry)) (k : FuncKey)
    (es : List TimingEntry) : List (FuncKey × List TimingEntry) :=
  match ts with
  | [] => [(k, es)]
  | e :: rest =>
    if e.1 = k then (e.1, e.2 ++ es) :: rest else e :: addTimings rest k es

/-- Modelled from the spec interface of the external engine: running the
instrumented function records the timing of the executed lines. -/
def recordRun (p : LineProfiler) (k : FuncKey) (es : List TimingEntry) :
    LineProfiler :=
  { p with stats := { p.stats with timings := addTimings p.stats.timings k es } }

/-- Embedding of the performance wrapper body: register the original with the
engine, invoke the instrumented function with the received arguments, and,
only when the call returns normally, run update_func_stats and return the
result; an exception of the call, or of the update, propagates unchanged. -/
def performance (profiler : LineProfiler) (func : PyFunc α β)
    (profiler_log_path : String) (args : α) (fs : FileSystem) : CallResult β :=
  let p1 := instrumentFunc profiler func.key
  let (res, recorded) := func.run args
  let p2 := recordRun p1 func.key recorded
  match res with
  | .error e =>
    { result := .error e, profiler := p2, fs := fs,
      events := [Event.instrumentCall func.key] }
  | .ok v =>
    let upd := update_func_stats p2 func.key profiler_log_path fs
    match upd.result with
    | .error e =>
      { result := .error e, profiler := p2, fs := upd.fs,
        events := Event.instrumentCall func.key :: upd.events }
    | .ok _ =>
      { result := .ok v, profiler := p2, fs := upd.fs,
        events := Event.instrumentCall func.key :: upd.events }

/-- Embedding of module_add_two from some_module/module.py: returns the pair
(0, value + 2); the engine records the timing of its return line. -/
def module_add_two : PyFunc Int (Int × Int) :=
  { key := { file := "some_module/module.py", firstLine := 33, name := "module_add_two" },
    run := fun value => (.ok (0, value + 2), [{ lineNo := 42, hits := 1, time := 120 }]) }

/-- Sample function whose body raises on every call, used to exercise the
exception path of the wrapper. -/
def raising_sample : PyFunc Int Int :=
  { key := { file := "some_module/module.py", firstLine := 50, name := "module_raises" },
    run := fun _ => (.error (Exc.user "ValueError" "boom"),
                     [{ lineNo := 51, hits := 1, time := 7 }]) }

/-- Engine state right after construction: empty stats, nothing registered. -/
def freshProfiler : LineProfiler :=
  { stats := { timings := [], unit := 1 }, instrumented := [] }

/-- Filesystem with no files and no failing paths. -/
def emptyFS : FileSystem := { files := [], failingPaths := [] }

/-- Outcome of the OS process-table query (ps -q pid -o comm=): the decoded
standard output, and the error stream, which is None when not captured. -/
structure PsQuery where
  out : String
  err : Option String
deriving DecidableEq

/-- Python truthiness of the optional error stream: None and the empty byte
string are falsy. -/
def errFalsy : Option String → Bool
  | none => true
  | some s => s.isEmpty

/-- Embedding of get_process_name: query the process table for the command
name of the current pid; when the error stream is falsy, process_name becomes
the stripped standard output; return process_name when truthy (a nonempty
string), and the decimal string of the pid otherwise. -/
def get_process_name (pid : Nat) (q : PsQuery) : String :=
  let process_name : Option String :=
    if errFalsy q.err then some q.out.trim else none
  match process_name with
  | some s => if s.isEmpty then toString pid else s
  | none => toString pid

/-- Model of the directory state of the operating system: directories that
exist, and paths on which creation fails with an OSError. -/
structure OsFs where
  dirs : List String
  failing : List String
deriving DecidableEq

/-- Modelled OS call os.makedirs with exist_ok true: an already existing
directory is tolerated; creation on a failing path raises OSError. -/
def makedirs (st : OsFs) (path : String) : Except Exc OsFs :=
  if path ∈ st.failing then .error (Exc.osError path)
  else .ok { st with dirs := if path ∈ st.dirs then st.dirs else st.dirs ++ [path] }

/-- Embedding of prepare_directory: run makedirs under a try that catches
OSError and returns false; return true when makedirs succeeds. -/
def prepare_directory (st : OsFs) (path : String) : Bool × OsFs :=
  match makedirs st path with
  | .error _ => (false, st)
  | .ok st2 => (true, st2)

/-- A module attribute value: a plain function (inspect.isfunction holds), a
performance wrapper installed around a function, or any non-function
attribute (class, constant, submodule, builtin), tagged for distinctness. -/
inductive PyObj where
  | func (key : FuncKey)
  | wrapper (orig : FuncKey)
  | nonFunc (tag : String)
deriving DecidableEq

/-- A module namespace: the dict of a Python module, keyed by attribute
name. -/
abbrev PyDict := List (String × PyObj)

/-- Python dict lookup: first binding of the attribute name, if any. -/
def getAttr (l : PyDict) (a : String) : Option PyObj :=
  match l with
  | [] => none
  | e :: rest => if e.1 = a then some e.2 else getAttr rest a

/-- Python dict assignment: overwrite the binding of the name when present,
append a new binding otherwise. -/
def setGlobal (l : PyDict) (a : String) (v : PyObj) : PyDict :=
  match l with
  | [] => [(a, v)]
  | e :: rest => if e.1 = a then (a, v) :: rest else e :: setGlobal rest a v

/-- Guard of the loop in decorate_module_functions: an attribute is skipped
when a truthy name filter is given and the attribute name does not start
with it (Python: if fnPfx and not attr.startswith(fnPfx)); the empty string
is falsy, so it disables the filter. -/
def selects (fnPfx : Option String) (attr : String) : Bool :=
  match fnPfx with
  | none => true
  | some s => if s.isEmpty then true else attr.startsWith s

/-- The two module namespaces decorate_module_functions touches: the dict of
the target module it reads, and the globals of the calling module (the frame
f_globals) it writes into. -/
structure PyModules where
  target : PyDict
  caller : PyDict
deriving DecidableEq

/-- Body of the loop in decorate_module_functions for one dict item: skip
attributes that are not plain functions and attributes rejected by the name
filter; otherwise bind a performance wrapper under the same attribute name
into the globals of the calling module. -/
def decorateStep (fnPfx : Option String) (acc : PyModules)
    (e : String × PyObj) : PyModules :=
  match e.2 with
  | PyObj.func k =>
    if selects fnPfx e.1 then
      { acc with caller := setGlobal acc.caller e.1 (PyObj.wrapper k) }
    else acc
  | _ => acc

/-- Embedding of decorate_module_functions: iterate over the dict items of
the target module, running the loop body on each. -/
def decorate_module_functions (fnPfx : Option String) (st : PyModules) :
    PyModules :=
  st.target.foldl (decorateStep fnPfx) st

/-- Program counter of one thread running the module-level init guard. -/
inductive ThreadPC where
  | checkSignal
  | acquireLock
  | runSeq
  | releaseLock
  | done
deriving DecidableEq

/-- Shared state of the init guard under two threads: the already-overwritten
event, the holder of the overwrite lock, the program counter of each thread,
and the number of LineProfiler engines constructed so far. -/
structure GuardState where
  signal : Bool
  owner : Option Bool
  pc0 : ThreadPC
  pc1 : ThreadPC
  engines : Nat
deriving DecidableEq

/-- Program counter of thread t (false is the first thread). -/
def GuardState.pcOf (s : GuardState) (t : Bool) : ThreadPC :=
  if t then s.pc1 else s.pc0

/-- Update of the program counter of thread t. -/
def GuardState.setPc (s : GuardState) (t : Bool) (p : ThreadPC) : GuardState :=
  if t then { s with pc1 := p } else { s with pc0 := p }

/-- Interleaving semantics of the module-level init guard (lines 190 to 199):
each thread checks the already-overwritten event and, when unset, acquires
the overwrite lock, runs the init sequence (prepare the directory, construct
the LineProfiler engine, decorate the module) and sets the event, then
releases the lock; when the event is already set it skips to the end. The
sequence body together with the event set is one atomic step, which only
makes the interleaving coarser than the real one. -/
inductive GStep : GuardState → GuardState → Prop where
  | check_unset (t : Bool) (s : GuardState) :
      s.pcOf t = ThreadPC.checkSignal → s.signal = false →
      GStep s (s.setPc t ThreadPC.acquireLock)
  | check_set (t : Bool) (s : GuardState) :
      s.pcOf t = ThreadPC.checkSignal → s.signal = true →
      GStep s (s.setPc t ThreadPC.done)
  | acquire (t : Bool) (s : GuardState) :
      s.pcOf t = ThreadPC.acquireLock → s.owner = none →
      GStep s { s.setPc t ThreadPC.runSeq with owner := some t }
  | runInit (t : Bool) (s : GuardState) :
      s.pcOf t = ThreadPC.runSeq → s.owner = some t →
      GStep s { s.setPc t ThreadPC.releaseLock with
                  signal := true, engines := s.engines + 1 }
  | releaseL (t : Bool) (s : GuardState) :
      s.pcOf t = ThreadPC.releaseLock → s.owner = some t →
      GStep s { s.setPc t ThreadPC.done with owner := none }

/-- Fresh first-load state: event unset, lock free, both threads about to run
the guard, no engine constructed yet. -/
def guardInit : GuardState :=
  { signal := false, owner := none,
    pc0 := ThreadPC.checkSignal, pc1 := ThreadPC.checkSignal, engines := 0 }

/-- State in which both racing threads have finished the guard after each
constructed an engine. -/
def guardRaced : GuardState :=
  { signal := true, owner := none,
    pc0 := ThreadPC.done, pc1 := ThreadPC.done, engines := 2 }

/-- Completed-init state with the guard re-triggered: the event is set, one
engine exists, and both threads are about to run the guard again. -/
def guardRetrigger : GuardState :=
  { signal := true, owner := none,
    pc0 := ThreadPC.checkSignal, pc1 := ThreadPC.checkSignal, engines := 1 }

/-! Helper lemmas. -/

theorem length_le_toDigitsCore (b : Nat) :
    ∀ (f n : Nat) (l : List Char), l.length ≤ (Nat.toDigitsCore b f n l).length := by
  intro f
  induction f with
  | zero => intro n l; simp [Nat.toDigitsCore]
  | succ f ih =>
    intro n l
    simp only [Nat.toDigitsCore]
    split
    · simp
    · exact le_trans (by simp) (ih _ _)

theorem toDigits_length_pos (b n : Nat) : 0 < (Nat.toDigits b n).length := by
  unfold Nat.toDigits
  simp only [Nat.toDigitsCore]
  split
  · simp
  · exact lt_of_lt_of_le (by simp) (length_le_toDigitsCore b n (n / b) _)

theorem nat_repr_ne_empty (n : Nat) : Nat.repr n ≠ "" := by
  intro h
  have h2 : Nat.toDigits 10 n = [] := by
    have h3 := congrArg String.data h
    simpa [Nat.repr, List.asString] using h3
  have h4 := toDigits_length_pos 10 n
  rw [h2] at h4
  simp at h4

theorem string_ne_empty_of_isEmpty_false (s : String) (h : s.isEmpty = false) :
    s ≠ "" := by
  intro he
  subst he
  rw [show ("" : String).isEmpty = true from rfl] at h
  exact Bool.noConfusion h

/-- Helper: when the log path is not failing, update_func_stats returns
normally in every case. -/
theorem update_func_stats_ok_of_not_failing (profiler : LineProfiler)
    (k : FuncKey) (lp : String) (fs : FileSystem)
    (hfail : logFilePath lp k.name ∉ fs.failingPaths) :
    (update_func_stats profiler k lp fs).result = Except.ok () := by
  cases h : lookupTiming profiler.stats.timings k with
  | none => simp [update_func_stats, h]
  | some t =>
    by_cases he : t.isEmpty <;> simp [update_func_stats, h, he, hfail]

/-! Claim theorems. -/

/-- C5: when the timing entry keyed by the (source file, starting line, name)
triple of the function is absent from the snapshot, update_func_stats returns
normally, leaves the filesystem untouched, opens no file and writes
nothing. -/
theorem update_func_stats_skips_missing (profiler : LineProfiler) (k : FuncKey)
    (lp : String) (fs : FileSystem)
    (h : lookupTiming profiler.stats.timings k = none) :
    (update_func_stats profiler k lp fs).result = Except.ok () ∧
    (update_func_stats profiler k lp fs).fs = fs ∧
    ∀ pth, Event.fileOpen pth ∉ (update_func_stats profiler k lp fs).events ∧
           Event.fileWrite pth ∉ (update_func_stats profiler k lp fs).events := by
  simp [update_func_stats, h]

/-- Witness for C5: concrete absent entry in an empty snapshot. -/
theorem update_func_stats_skips_missing_witness :
    (update_func_stats freshProfiler module_add_two.key "performance_log/python3" emptyFS).result = Except.ok () ∧
    (update_func_stats freshProfiler module_add_two.key "performance_log/python3" emptyFS).fs = emptyFS ∧
    ∀ pth, Event.fileOpen pth ∉ (update_func_stats freshProfiler module_add_two.key "performance_log/python3" emptyFS).events ∧
           Event.fileWrite pth ∉ (update_func_stats freshProfiler module_add_two.key "performance_log/python3" emptyFS).events :=
  update_func_stats_skips_missing freshProfiler module_add_two.key
    "performance_log/python3" emptyFS rfl

/-- C10: a log write happens exactly when the timing entry under the key is
present and nonempty; a present but empty (falsy) entry is skipped exactly
like an absent one, with no file open and no write. -/
theorem update_func_stats_write_iff (profiler : LineProfiler) (k : FuncKey)
    (lp : String) (fs : FileSystem)
    (hfail : logFilePath lp k.name ∉ fs.failingPaths) :
    ((∃ pth, Event.fileWrite pth ∈ (update_func_stats profiler k lp fs).events) ↔
      ∃ t, lookupTiming profiler.stats.timings k = some t ∧ t ≠ []) ∧
    ((lookupTiming profiler.stats.timings k = none ∨
      lookupTiming profiler.stats.timings k = some []) →
      update_func_stats profiler k lp fs =
        { result := Except.ok (), fs := fs, events := [Event.statsFetch] }) := by
  cases h : lookupTiming profiler.stats.timings k with
  | none => simp [update_func_stats, h]
  | some t =>
    cases t with
    | nil => simp [update_func_stats, h]
    | cons a l => simp [update_func_stats, h, hfail]

/-- Witness for C10: concrete snapshot holding one nonempty entry for the
key, on a filesystem with no failing path. -/
theorem update_func_stats_write_iff_witness :
    ((∃ pth, Event.fileWrite pth ∈ (update_func_stats (recordRun freshProfiler module_add_two.key [{ lineNo := 42, hits := 1, time := 120 }]) module_add_two.key "performance_log/python3" emptyFS).events) ↔
      ∃ t, lookupTiming (recordRun freshProfiler module_add_two.key [{ lineNo := 42, hits := 1, time := 120 }]).stats.timings module_add_two.key = some t ∧ t ≠ []) ∧
    ((lookupTiming (recordRun freshProfiler module_add_two.key [{ lineNo := 42, hits := 1, time := 120 }]).stats.timings module_add_two.key = none ∨
      lookupTiming (recordRun freshProfiler module_add_two.key [{ lineNo := 42, hits := 1, time := 120 }]).stats.timings module_add_two.key = some []) →
      update_func_stats (recordRun freshProfiler module_add_two.key [{ lineNo := 42, hits := 1, time := 120 }]) module_add_two.key "performance_log/python3" emptyFS =
        { result := Except.ok (), fs := emptyFS, events := [Event.statsFetch] }) :=
  update_func_stats_write_iff
    (recordRun freshProfiler module_add_two.key [{ lineNo := 42, hits := 1, time := 120 }])
    module_add_two.key "performance_log/python3" emptyFS (by simp [emptyFS])

/-- C7: prepare_directory is total and never raises: it returns false exactly
when the OS directory creation fails with an OSError, leaving the state
untouched, and returns true otherwise, in particular when the directory
already exists. -/
theorem prepare_directory_spec (st : OsFs) (path : String) :
    ((prepare_directory st path).1 = false ↔ path ∈ st.failing) ∧
    (path ∈ st.failing → prepare_directory st path = (false, st)) ∧
    (path ∉ st.failing → (prepare_directory st path).1 = true) := by
  by_cases h : path ∈ st.failing <;> simp [prepare_directory, makedirs, h]

/-- Witness for C7 at a concrete state where the directory already exists. -/
theorem prepare_directory_spec_witness :
    ((prepare_directory { dirs := ["performance_log"], failing := [] } "performance_log").1 = false ↔ "performance_log" ∈ OsFs.failing { dirs := ["performance_log"], failing := [] }) ∧
    ("performance_log" ∈ OsFs.failing { dirs := ["performance_log"], failing := [] } → prepare_directory { dirs := ["performance_log"], failing := [] } "performance_log" = (false, { dirs := ["performance_log"], failing := [] })) ∧
    ("performance_log" ∉ OsFs.failing { dirs := ["performance_log"], failing := [] } → (prepare_directory { dirs := ["performance_log"], failing := [] } "performance_log").1 = true) :=
  prepare_directory_spec { dirs := ["performance_log"], failing := [] } "performance_log"

/-- C8: get_process_name always returns a nonempty usable label and never
fails: the stripped command name reported by the process table on success,
and the decimal string of the pid whenever the error stream is truthy or the
stripped output is empty. -/
theorem get_process_name_spec (pid : Nat) (q : PsQuery) :
    get_process_name pid q ≠ "" ∧
    (errFalsy q.err = false → get_process_name pid q = toString pid) ∧
    (q.out.trim = "" → get_process_name pid q = toString pid) ∧
    (errFalsy q.err = true → q.out.trim ≠ "" →
      get_process_name pid q = q.out.trim) := by
  have hpid : (toString pid : String) ≠ "" := nat_repr_ne_empty pid
  by_cases ho : q.out.trim = ""
  · by_cases he : errFalsy q.err <;>
      simp [get_process_name, he, ho, hpid,
            show ("" : String).isEmpty = true from rfl]
  · have ho2 : (q.out.trim).isEmpty = false := by
      cases hx : (q.out.trim).isEmpty
      · rfl
      · exact absurd ((String.isEmpty_iff _).mp hx) ho
    by_cases he : errFalsy q.err <;>
      simp [get_process_name, he, ho, ho2, hpid]

/-- Witness for C8 at a concrete failing query: nonempty output on the error
stream forces the pid fallback. -/
theorem get_process_name_spec_witness :
    get_process_name 1234 { out := "python3", err := some "ps: failure" } ≠ "" ∧
    (errFalsy (PsQuery.err { out := "python3", err := some "ps: failure" }) = false → get_process_name 1234 { out := "python3", err := some "ps: failure" } = toString 1234) ∧
    (String.trim (PsQuery.out { out := "python3", err := some "ps: failure" }) = "" → get_process_name 1234 { out := "python3", err := some "ps: failure" } = toString 1234) ∧
    (errFalsy (PsQuery.err { out := "python3", err := some "ps: failure" }) = true → String.trim (PsQuery.out { out := "python3", err := some "ps: failure" }) ≠ "" →
      get_process_name 1234 { out := "python3", err := some "ps: failure" } = String.trim (PsQuery.out { out := "python3", err := some "ps: failure" })) :=
  get_process_name_spec 1234 { out := "python3", err := some "ps: failure" }

/-- C1: the wrapper is behaviorally transparent in the success path: for
every wrapped function and every argument, when the original call returns a
value and the log path is not failing, the wrapped call returns exactly that
value; the witness instantiates this with module_add_two at 4, whose wrapped
call returns (0, 6). -/
theorem performance_transparent {α β : Type} (profiler : LineProfiler)
    (func : PyFunc α β) (lp : String) (args : α) (fs : FileSystem)
    (v : β) (recorded : List TimingEntry)
    (hrun : func.run args = (Except.ok v, recorded))
    (hfail : logFilePath lp func.key.name ∉ fs.failingPaths) :
    (performance profiler func lp args fs).result = Except.ok v := by
  have hok := update_func_stats_ok_of_not_failing
    (recordRun (instrumentFunc profiler func.key) func.key recorded)
    func.key lp fs hfail
  simp only [performance, hrun]
  cases hupd : (update_func_stats
      (recordRun (instrumentFunc profiler func.key) func.key recorded)
      func.key lp fs).result with
  | error e => rw [hupd] at hok; exact Except.noConfusion hok
  | ok u => simp [hupd]

/-- Witness for C1: the wrapped sample call module_add_two 4 returns the pair
(0, 6), exactly the value of the original. -/
theorem performance_transparent_witness :
    (performance freshProfiler module_add_two "performance_log/python3" 4
      emptyFS).result = Except.ok ((0 : Int), (6 : Int)) :=
  performance_transparent freshProfiler module_add_two "performance_log/python3"
    4 emptyFS (0, 6) [{ lineNo := 42, hits := 1, time := 120 }] rfl
    (by simp [emptyFS])

/-- C2: when the original call raises, the wrapper skips the side effect
entirely, fetching no snapshot, opening no file and writing nothing, leaves
the filesystem untouched, and propagates the very same exception value (same
constructor, type and message) to the caller. -/
theorem performance_exception_transparent {α β : Type} (profiler : LineProfiler)
    (func : PyFunc α β) (lp : String) (args : α) (fs : FileSystem)
    (e : Exc) (recorded : List TimingEntry)
    (hrun : func.run args = (Except.error e, recorded)) :
    (performance profiler func lp args fs).result = Except.error e ∧
    (performance profiler func lp args fs).fs = fs ∧
    Event.statsFetch ∉ (performance profiler func lp args fs).events ∧
    ∀ pth, Event.fileOpen pth ∉ (performance profiler func lp args fs).events ∧
           Event.fileWrite pth ∉ (performance profiler func lp args fs).events := by
  simp [performance, hrun]

/-- Witness for C2 at a sample function raising ValueError boom on input 0. -/
theorem performance_exception_transparent_witness :
    (performance freshProfiler raising_sample "performance_log/python3" 0
      emptyFS).result = Except.error (Exc.user "ValueError" "boom") ∧
    (performance freshProfiler raising_sample "performance_log/python3" 0
      emptyFS).fs = emptyFS ∧
    Event.statsFetch ∉ (performance freshProfiler raising_sample
      "performance_log/python3" 0 emptyFS).events ∧
    ∀ pth, Event.fileOpen pth ∉ (performance freshProfiler raising_sample
             "performance_log/python3" 0 emptyFS).events ∧
           Event.fileWrite pth ∉ (performance freshProfiler raising_sample
             "performance_log/python3" 0 emptyFS).events :=
  performance_exception_transparent freshProfiler raising_sample
    "performance_log/python3" 0 emptyFS (Exc.user "ValueError" "boom")
    [{ lineNo := 51, hits := 1, time := 7 }] rfl

/-- C6: a failure opening the per-function log file during the post-call side
effect is caught nowhere in the wrapper path: even though the original call
returned a value, the OSError propagates out of the wrapped call to the
caller in place of the value. -/
theorem performance_log_failure_propagates {α β : Type}
    (profiler : LineProfiler) (func : PyFunc α β) (lp : String) (args : α)
    (fs : FileSystem) (v : β) (recorded : List TimingEntry)
    (t : List TimingEntry)
    (hrun : func.run args = (Except.ok v, recorded))
    (ht : lookupTiming (recordRun (instrumentFunc profiler func.key) func.key
            recorded).stats.timings func.key = some t)
    (hne : t ≠ [])
    (hfail : logFilePath lp func.key.name ∈ fs.failingPaths) :
    (performance profiler func lp args fs).result =
      Except.error (Exc.osError (logFilePath lp func.key.name)) := by
  have hupd : (update_func_stats
      (recordRun (instrumentFunc profiler func.key) func.key recorded)
      func.key lp fs).result =
      Except.error (Exc.osError (logFilePath lp func.key.name)) := by
    have hne2 : t.isEmpty = false := by
      cases t with
      | nil => exact absurd rfl hne
      | cons a l => rfl
    simp [update_func_stats, ht, hne2, hfail]
  simp only [performance, hrun]
  simp [hupd]

/-- Witness for C6: wrapped module_add_two 4 on a filesystem where the log
file path fails returns the OSError instead of the value (0, 6). -/
theorem performance_log_failure_propagates_witness :
    (performance freshProfiler module_add_two "performance_log/python3" 4
      { files := [],
        failingPaths := ["performance_log/python3/module_add_two"] }).result =
      Except.error (Exc.osError (logFilePath "performance_log/python3"
        "module_add_two")) :=
  performance_log_failure_propagates freshProfiler module_add_two
    "performance_log/python3" 4
    { files := [], failingPaths := ["performance_log/python3/module_add_two"] }
    (0, 6) [{ lineNo := 42, hits := 1, time := 120 }]
    [{ lineNo := 42, hits := 1, time := 120 }] rfl rfl
    (by simp) (by decide)

/-- Last selected binding of attribute a among the dict items: the function
key whose wrapper the loop leaves bound under a, when any item selects a. -/
def selectedKey (fnPfx : Option String) (l : PyDict) (a : String) :
    Option FuncKey :=
  match l with
  | [] => none
  | e :: rest =>
    match selectedKey fnPfx rest a with
    | some k => some k
    | none =>
      match e.2 with
      | PyObj.func k =>
        if selects fnPfx e.1 = true ∧ e.1 = a then some k else none
      | _ => none

/-- Sample dict of the target module some_module/module.py: the imported
builtin sleep, which is not a plain function, and the two module
functions. -/
def sample_module_dict : PyDict :=
  [("sleep", PyObj.nonFunc "builtin_function_or_method"),
   ("module_do_long_work", PyObj.func
      { file := "some_module/module.py", firstLine := 28,
        name := "module_do_long_work" }),
   ("module_add_two", PyObj.func module_add_two.key)]

/-- Sample pair of namespaces before decoration: the sample target module and
an empty calling module. -/
def sample_modules : PyModules := { target := sample_module_dict, caller := [] }

theorem getAttr_setGlobal (l : PyDict) (a b : String) (v : PyObj) :
    getAttr (setGlobal l a v) b = if a = b then some v else getAttr l b := by
  induction l with
  | nil => simp [setGlobal, getAttr]
  | cons e rest ih =>
    by_cases h2 : a = b
    · subst h2
      by_cases h1 : e.1 = a
      · simp [setGlobal, getAttr, h1]
      · simp [setGlobal, getAttr, h1, ih]
    · have h4 : ¬ b = a := fun hba => h2 hba.symm
      by_cases h1 : e.1 = a
      · have h3 : ¬ e.1 = b := fun hb => h2 (h1.symm.trans hb)
        simp [setGlobal, getAttr, h1, h2, h3, h4]
      · by_cases h3 : e.1 = b
        · simp [setGlobal, getAttr, h1, h2, h3, h4]
        · simp [setGlobal, getAttr, h1, h2, h3, h4, ih]

theorem decorateStep_target (fnPfx : Option String) (acc : PyModules)
    (e : String × PyObj) : (decorateStep fnPfx acc e).target = acc.target := by
  cases he : e.2 with
  | func k =>
    simp only [decorateStep, he]
    split <;> rfl
  | wrapper k => simp [decorateStep, he]
  | nonFunc tag => simp [decorateStep, he]

theorem foldl_decorateStep_target (fnPfx : Option String)
    (l : List (String × PyObj)) :
    ∀ st : PyModules, (l.foldl (decorateStep fnPfx) st).target = st.target := by
  induction l with
  | nil => intro st; rfl
  | cons e rest ih =>
    intro st
    rw [List.foldl_cons, ih, decorateStep_target]

theorem getAttr_foldl_decorateStep (fnPfx : Option String)
    (l : List (String × PyObj)) :
    ∀ (st : PyModules) (a : String),
    getAttr (l.foldl (decorateStep fnPfx) st).caller a =
      match selectedKey fnPfx l a with
      | some k => some (PyObj.wrapper k)
      | none => getAttr st.caller a := by
  induction l with
  | nil => intro st a; simp [selectedKey]
  | cons e rest ih =>
    intro st a
    rw [List.foldl_cons, ih]
    cases hsel : selectedKey fnPfx rest a with
    | some k => simp [selectedKey, hsel]
    | none =>
      simp only [selectedKey, hsel]
      cases he : e.2 with
      | func k =>
        by_cases hs : selects fnPfx e.1 = true
        · by_cases hae : e.1 = a
          · subst hae
            simp [decorateStep, he, hs, getAttr_setGlobal]
          · simp [decorateStep, he, hs, hae, getAttr_setGlobal]
        · simp [decorateStep, he, hs]
      | wrapper k => simp [decorateStep, he]
      | nonFunc tag => simp [decorateStep, he]

theorem selectedKey_eq_none_of_not_mem (fnPfx : Option String) (l : PyDict)
    (a : String) (h : a ∉ l.map Prod.fst) : selectedKey fnPfx l a = none := by
  induction l with
  | nil => rfl
  | cons e rest ih =>
    simp only [List.map_cons, List.mem_cons, not_or] at h
    rw [selectedKey, ih h.2]
    cases he : e.2 with
    | func k =>
      have : ¬(selects fnPfx e.1 = true ∧ e.1 = a) := by
        rintro ⟨-, hea⟩
        exact h.1 hea.symm
      simp [this]
    | wrapper k => rfl
    | nonFunc tag => rfl

theorem selectedKey_eq_some_of_mem (fnPfx : Option String) (l : PyDict)
    (a : String) (k : FuncKey) (hnd : (l.map Prod.fst).Nodup)
    (hmem : (a, PyObj.func k) ∈ l) (hsel : selects fnPfx a = true) :
    selectedKey fnPfx l a = some k := by
  induction l with
  | nil => cases hmem
  | cons e rest ih =>
    simp only [List.map_cons, List.nodup_cons] at hnd
    rcases List.mem_cons.mp hmem with he | hmem2
    · subst he
      rw [selectedKey,
          selectedKey_eq_none_of_not_mem fnPfx rest a hnd.1]
      simp [hsel]
    · rw [selectedKey, ih hnd.2 hmem2]

theorem selectedKey_eq_none_of_unselected (fnPfx : Option String) (l : PyDict)
    (a : String)
    (h : ∀ k : FuncKey, (a, PyObj.func k) ∈ l → selects fnPfx a = false) :
    selectedKey fnPfx l a = none := by
  induction l with
  | nil => rfl
  | cons e rest ih =>
    rw [selectedKey, ih (fun k hk => h k (List.mem_cons_of_mem e hk))]
    cases he : e.2 with
    | func k =>
      have hcond : ¬(selects fnPfx e.1 = true ∧ e.1 = a) := by
        rintro ⟨hs, hea⟩
        have he2 : e = (a, PyObj.func k) := Prod.ext hea he
        have hmem : (a, PyObj.func k) ∈ e :: rest := by
          rw [← he2]
          exact List.mem_cons_self e rest
        rw [hea] at hs
        rw [h k hmem] at hs
        exact Bool.noConfusion hs
      simp [hcond]
    | wrapper k => rfl
    | nonFunc tag => rfl

/-- C9: decorate_module_functions never mutates the target module: its dict,
hence every attribute of it including the original function bindings, is
identical before and after decoration; only the globals of the calling
module are written. -/
theorem decorate_preserves_target (fnPfx : Option String) (st : PyModules) :
    (decorate_module_functions fnPfx st).target = st.target ∧
    ∀ a, getAttr (decorate_module_functions fnPfx st).target a =
           getAttr st.target a := by
  have h := foldl_decorateStep_target fnPfx st.target st
  exact ⟨h, fun a => by rw [decorate_module_functions, h]⟩

/-- C3: with a nonempty name filter, decorate_module_functions installs into
the globals of the calling module exactly the plain functions of the target
module whose name starts with the filter, each bound under its own name as a
performance wrapper of that function; every name not bound in the target to
a plain function starting with the filter keeps its previous binding in the
calling module. -/
theorem decorate_selects_by_name (st : PyModules) (s : String) (hs : s ≠ "")
    (hnd : (st.target.map Prod.fst).Nodup) :
    (∀ a k, (a, PyObj.func k) ∈ st.target → a.startsWith s = true →
      getAttr (decorate_module_functions (some s) st).caller a =
        some (PyObj.wrapper k)) ∧
    (∀ a, (∀ k, (a, PyObj.func k) ∈ st.target → a.startsWith s = false) →
      getAttr (decorate_module_functions (some s) st).caller a =
        getAttr st.caller a) := by
  have hse : s.isEmpty = false := by
    cases hx : s.isEmpty
    · rfl
    · exact absurd ((String.isEmpty_iff s).mp hx) hs
  have hsel : ∀ a : String, selects (some s) a = a.startsWith s := by
    intro a
    simp [selects, hse]
  constructor
  · intro a k hmem hpre
    rw [decorate_module_functions, getAttr_foldl_decorateStep,
        selectedKey_eq_some_of_mem (some s) st.target a k hnd hmem
          (by rw [hsel]; exact hpre)]
  · intro a hnone
    rw [decorate_module_functions, getAttr_foldl_decorateStep,
        selectedKey_eq_none_of_unselected (some s) st.target a
          (fun k hk => by rw [hsel]; exact hnone k hk)]

/-- Witness for C3 on the sample module dict with the filter used by the
program, module underscore. -/
theorem decorate_selects_by_name_witness :
    (∀ a k, (a, PyObj.func k) ∈ sample_modules.target →
      a.startsWith "module_" = true →
      getAttr (decorate_module_functions (some "module_")
        sample_modules).caller a = some (PyObj.wrapper k)) ∧
    (∀ a, (∀ k, (a, PyObj.func k) ∈ sample_modules.target →
      a.startsWith "module_" = false) →
      getAttr (decorate_module_functions (some "module_")
        sample_modules).caller a = getAttr sample_modules.caller a) :=
  decorate_selects_by_name sample_modules "module_" (by decide)
    (by simp [sample_modules, sample_module_dict])

/-- Counterexample for C4: the guard checks the event outside the lock and
never re-checks it after acquiring the lock, so an interleaving in which both
threads pass the unset check before either sets the event makes both run the
init sequence; the lock only serializes the two runs, and two engines are
constructed from the fresh first-load state. -/
theorem guard_double_init_reachable :
    Relation.ReflTransGen GStep guardInit guardRaced ∧
    guardInit.engines = 0 ∧ guardRaced.engines = 2 := by
  refine ⟨?_, rfl, rfl⟩
  refine Relation.ReflTransGen.head
    (GStep.check_unset false guardInit rfl rfl) ?_
  refine Relation.ReflTransGen.head (GStep.check_unset true _ rfl rfl) ?_
  refine Relation.ReflTransGen.head (GStep.acquire false _ rfl rfl) ?_
  refine Relation.ReflTransGen.head (GStep.runInit false _ rfl rfl) ?_
  refine Relation.ReflTransGen.head (GStep.releaseL false _ rfl rfl) ?_
  refine Relation.ReflTransGen.head (GStep.acquire true _ rfl rfl) ?_
  refine Relation.ReflTransGen.head (GStep.runInit true _ rfl rfl) ?_
  refine Relation.ReflTransGen.head (GStep.releaseL true _ rfl rfl) ?_
  exact Relation.ReflTransGen.refl

/-- C4 amended: re-triggering initialization after it has completed does not
re-run the sequence: from the completed state with the guard re-triggered by
both threads, every reachable state still has exactly one constructed engine
and the event still set. (The first-load race part of the original claim is
refuted by the counterexample: without a re-check of the event inside the
lock, two racing threads may each construct an engine.) -/
theorem guard_retrigger_idempotent (s : GuardState)
    (h : Relation.ReflTransGen GStep guardRetrigger s) :
    s.engines = 1 ∧ s.signal = true := by
  have inv : ∀ s2 : GuardState, Relation.ReflTransGen GStep guardRetrigger s2 →
      s2.signal = true ∧ s2.engines = 1 ∧
      (s2.pc0 = ThreadPC.checkSignal ∨ s2.pc0 = ThreadPC.done) ∧
      (s2.pc1 = ThreadPC.checkSignal ∨ s2.pc1 = ThreadPC.done) := by
    intro s2 h2
    induction h2 with
    | refl => exact ⟨rfl, rfl, Or.inl rfl, Or.inl rfl⟩
    | tail hab hstep ih =>
      obtain ⟨hsig, heng, hp0, hp1⟩ := ih
      cases hstep with
      | check_unset t s3 hpc hs =>
        rw [hsig] at hs
        exact Bool.noConfusion hs
      | check_set t s3 hpc hs =>
        cases t with
        | false =>
          exact ⟨hsig, heng, Or.inr rfl, hp1⟩
        | true =>
          exact ⟨hsig, heng, hp0, Or.inr rfl⟩
      | acquire t s3 hpc hown =>
        cases t with
        | false => rcases hp0 with h5 | h5 <;> simp [GuardState.pcOf, h5] at hpc
        | true => rcases hp1 with h5 | h5 <;> simp [GuardState.pcOf, h5] at hpc
      | runInit t s3 hpc hown =>
        cases t with
        | false => rcases hp0 with h5 | h5 <;> simp [GuardState.pcOf, h5] at hpc
        | true => rcases hp1 with h5 | h5 <;> simp [GuardState.pcOf, h5] at hpc
      | releaseL t s3 hpc hown =>
        cases t with
        | false => rcases hp0 with h5 | h5 <;> simp [GuardState.pcOf, h5] at hpc
        | true => rcases hp1 with h5 | h5 <;> simp [GuardState.pcOf, h5] at hpc
  obtain ⟨hsig, heng, -, -⟩ := inv s h
  exact ⟨heng, hsig⟩

/-- Witness for the amended C4: one re-trigger step (the first thread sees
the event set and skips to the end) leaves exactly one engine. -/
theorem guard_retrigger_idempotent_witness :
    (GuardState.setPc guardRetrigger false ThreadPC.done).engines = 1 ∧
    (GuardState.setPc guardRetrigger false ThreadPC.done).signal = true :=
  guard_retrigger_idempotent _
    (Relation.ReflTransGen.single (GStep.check_set false guardRetrigger rfl rfl))

end Pyperflog
